import Mathlib

/-!
Verification of `starlette/middleware/simple.py` (`SimpleHTTPMiddleware`):
a generator-based middleware adapter bridging a two-phase dispatch
generator onto the ASGI message-passing protocol.

The adapter itself (`__init__`, `__call__`, `wrapped_send`) is embedded
directly from the source.  The collaborator types `Headers`, `Response`
and the response delivery protocol live outside the sources at hand
(`starlette/datastructures.py`, `starlette/responses.py`); they are
modelled from the specification, as marked on each such definition.
-/

/-- Exceptions that can flow through the adapter.  `stopAsyncIteration` is
the generator-exhausted signal; `runtimeError` and `valueError` are the
two errors the adapter itself raises; `other` stands for any user or
transport exception passing through. -/
inductive Exc where
  | stopAsyncIteration
  | runtimeError (msg : String)
  | valueError (msg : String)
  | other (name : String)
deriving DecidableEq, Repr

/-- The message type string of a response-start ASGI message. -/
def responseStartType : String := "http.response.start"

/-- The header key the adapter reads to derive the media type
(`headers.get("Content-Type")` in `wrapped_send`). -/
def contentTypeHeaderKey : String := "Content-Type"

/-- The message of the `RuntimeError` raised on a generator contract
violation in `wrapped_send`. -/
def generatorDidNotStop : String := "Generator did not stop"

/-- The message of the `ValueError` raised by `__init__` when no dispatch
function is provided. -/
def noDispatchProvided : String := "No dispatch function provided"

/-- Python `str.lower()` on the ASCII header keys in play, character by
character. -/
def pyLower (s : String) : String := String.mk (s.data.map Char.toLower)

/-- Python `str.startswith(pre)`. -/
def pyStartsWith (s pre : String) : Bool := s.data.take pre.data.length = pre.data

/-- Modelled from the spec: a case-insensitive ordered header-mapping view
constructible from raw header pairs (`starlette.datastructures.Headers`,
not among the sources at hand). -/
structure Headers where
  raw : List (String × String)
deriving DecidableEq, Repr

/-- Modelled from the spec: case-insensitive lookup returning the first
matching header value, `none` when absent. -/
def Headers.get (h : Headers) (key : String) : Option String :=
  (h.raw.find? (fun p => pyLower p.fst = pyLower key)).map (fun p => p.snd)

/-- Modelled from the spec: the mutable outgoing response descriptor /
response value object (`starlette.responses.Response`, not among the
sources at hand) exposing status code, headers and media type; `body`
carries the payload of a real short-circuit response. -/
structure Response where
  status_code : Nat
  headers : Headers
  media_type : Option String
  body : List Nat
deriving DecidableEq, Repr

/-- Modelled from the spec: the content-type value a response derives from
a media type, with the default charset parameter appended for textual
media types (mirrors how a response object computes its content type). -/
def defaultContentType (mt : String) : String :=
  if pyStartsWith mt "text/" then mt ++ "; charset=utf-8" else mt

/-- Modelled from the spec: `Response.init_headers` — regenerate the full
header set from the given headers as a fresh baseline, then apply the new
media type's content-type value (mirrors how a response object
initializes its own headers). -/
def Response.init_headers (r : Response) (hs : Headers) : Response :=
  match r.media_type with
  | none => { r with headers := hs }
  | some mt =>
      let kept := hs.raw.filter (fun p => pyLower p.fst ≠ "content-type")
      { r with headers := Headers.mk (kept ++ [("content-type", defaultContentType mt)]) }

/-- One ASGI outgoing message: a `type` tag plus the fields the adapter
touches (`status`, `headers`) and the payload fields it forwards
untouched (`body`). -/
structure Message where
  type : String
  status : Nat
  headers : List (String × String)
  body : List Nat
deriving DecidableEq, Repr

/-- Modelled from the spec: delivering a response object directly to the
transport via the standard three-part call sends its status and headers
in a response-start message followed by its body. -/
def Response.toMessages (r : Response) : List Message :=
  [Message.mk responseStartType r.status_code r.headers.raw [],
   Message.mk "http.response.body" 0 [] r.body]

/-- Outcome of the first advance of the dispatch generator
(`gen.__anext__()`): it either yields a value (`none` = continue, or a
short-circuit response) or raises — `stopAsyncIteration` when the
generator body returns without yielding. -/
inductive FirstStep where
  | yields (v : Option Response)
  | raises (e : Exc)

/-- Outcome of resuming the generator with the response descriptor
(`gen.asend(response)`): it terminates normally having mutated the
descriptor to `r` (raising the exhausted signal), yields a second time
(contract violation), or raises some other exception from its body. -/
inductive SecondStep where
  | stops (r : Response)
  | yieldsAgain
  | raises (e : Exc)

/-- A dispatch generator, as a two-phase machine: the result of the first
advance, and the behaviour on second resumption as a function of the
descriptor it is sent.  Once exhausted, further resumptions raise the
exhausted signal without touching this function (Python async-generator
semantics). -/
structure DispatchGen where
  first : FirstStep
  second : Response → SecondStep

/-- The synthetic `_UnsendableResponse` descriptor `wrapped_send` builds
from a response-start message: status from the message, headers wrapped
from the raw pairs, media type derived from the `Content-Type` header. -/
def descriptorOf (message : Message) : Response :=
  let headers := Headers.mk message.headers
  Response.mk message.status headers (headers.get contentTypeHeaderKey) []

/-- Python truthiness of an optional string (`if response.media_type`):
present and non-empty. -/
def optTruthy : Option String → Bool
  | none => false
  | some s => s ≠ ""

/-- One call of `wrapped_send` on one message, with `exhausted` recording
whether the generator has already been driven to exhaustion.  For a
response-start message: build the descriptor, resume the generator
(catching only the exhausted signal; a second yield is the fatal
`RuntimeError`), copy status back, regenerate headers when the media type
was changed to a different truthy value, copy headers back.  Any other
message passes through unchanged.  Returns the message to forward and the
updated exhaustion flag. -/
def wrappedSendOne (gen : DispatchGen) (exhausted : Bool) (message : Message) :
    Except Exc (Message × Bool) :=
  if message.type = responseStartType then
    let response := descriptorOf message
    let media_type := response.media_type
    let step : Except Exc Response :=
      if exhausted then Except.ok response
      else
        match gen.second response with
        | SecondStep.stops r => Except.ok r
        | SecondStep.yieldsAgain => Except.error (Exc.runtimeError generatorDidNotStop)
        | SecondStep.raises e => Except.error e
    match step with
    | Except.error e => Except.error e
    | Except.ok r =>
        let r2 := if optTruthy r.media_type ∧ r.media_type ≠ media_type
                  then r.init_headers r.headers
                  else r
        Except.ok ({ message with status := r.status_code, headers := r2.headers.raw }, true)
  else
    Except.ok (message, exhausted)

/-- Run the wrapped send over the messages the inner application emits,
handing each processed message to the real sink (which may itself raise).
Returns the messages delivered to the sink, the final exhaustion flag,
and the first exception raised, if any, which aborts the remainder. -/
def sendAllW (gen : DispatchGen) (sink : Message → Option Exc) :
    Bool → List Message → List Message × Bool × Option Exc
  | exh, [] => ([], exh, none)
  | exh, m :: ms =>
      match wrappedSendOne gen exh m with
      | Except.error e => ([], exh, some e)
      | Except.ok (m2, exh2) =>
          match sink m2 with
          | some e => ([m2], exh2, some e)
          | none =>
              let rest := sendAllW gen sink exh2 ms
              (m2 :: rest.fst, rest.snd.fst, rest.snd.snd)

/-- Deliver a list of messages straight to the real sink (the
short-circuit path), stopping at the first sink exception. -/
def deliverAll (sink : Message → Option Exc) : List Message → List Message × Option Exc
  | [] => ([], none)
  | m :: ms =>
      match sink m with
      | some e => ([m], some e)
      | none =>
          let rest := deliverAll sink ms
          (m :: rest.fst, rest.snd)

/-- The inner ASGI application, observed through its send calls: the
messages it emits in order, and an exception it raises after emitting
them (`none` = returns normally). -/
structure InnerApp where
  msgs : List Message
  exc : Option Exc

/-- Result of the adapter body, before the scoped-lifetime wrapper:
messages delivered to the real sink, the exception propagating out
(`none` = normal return), and whether the inner application was
invoked. -/
structure BodyResult where
  sent : List Message
  error : Option Exc
  appInvoked : Bool
deriving DecidableEq, Repr

/-- Result of one adapter call, with `genClosed` recording that the
scoped-lifetime wrapper closed the dispatch generator on the way out. -/
structure CallResult where
  sent : List Message
  error : Option Exc
  appInvoked : Bool
  genClosed : Bool
deriving DecidableEq, Repr

namespace SimpleHTTPMiddleware

/-- The body of `SimpleHTTPMiddleware.__call__` inside the `aclosing`
block: advance the generator once; a raised exception propagates; a
yielded response is delivered directly to the transport and the inner
application is never invoked; on a yielded `None` the inner application
runs with the wrapped send, and its own exception surfaces only when no
send raised first. -/
def callBodyW (gen : DispatchGen) (app : InnerApp) (sink : Message → Option Exc) :
    BodyResult :=
  match gen.first with
  | FirstStep.raises e => BodyResult.mk [] (some e) false
  | FirstStep.yields (some r) =>
      let d := deliverAll sink r.toMessages
      BodyResult.mk d.fst d.snd false
  | FirstStep.yields none =>
      let s := sendAllW gen sink false app.msgs
      match s.snd.snd with
      | some e => BodyResult.mk s.fst (some e) true
      | none => BodyResult.mk s.fst app.exc true

/-- The `async with aclosing(...)` wrapper: whatever the body does —
normal return, short-circuit return, or exception — the generator is
closed on exit. -/
def aclosingWrap (b : BodyResult) : CallResult :=
  CallResult.mk b.sent b.error b.appInvoked true

/-- `SimpleHTTPMiddleware.__call__` against a real sink that may raise. -/
def callW (gen : DispatchGen) (app : InnerApp) (sink : Message → Option Exc) :
    CallResult :=
  aclosingWrap (callBodyW gen app sink)

/-- `SimpleHTTPMiddleware.__call__` against a transport sink that accepts
every message. -/
def call (gen : DispatchGen) (app : InnerApp) : CallResult :=
  callW gen app (fun _ => none)

/-- A dispatch function: connection in, dispatch generator out.  The
connection context itself plays no role in the claims under study, so it
is left abstract. -/
def DispatchFunction : Type := Unit → DispatchGen

/-- `SimpleHTTPMiddleware.__init__`: `dispatch` is the constructor
argument, `overridden` the subclass override of the `dispatch` method
(`none` when the class attribute is still the base one).  With neither,
construction raises `ValueError`; otherwise the effective dispatch
function is stored. -/
def construct (dispatch : Option DispatchFunction)
    (overridden : Option DispatchFunction) : Except Exc DispatchFunction :=
  match dispatch with
  | none =>
      match overridden with
      | none => Except.error (Exc.valueError noDispatchProvided)
      | some d => Except.ok d
  | some d => Except.ok d

end SimpleHTTPMiddleware

/-! ## Helper lemmas -/

/-- A non-response-start message passes through `wrapped_send` unchanged,
leaving the exhaustion flag alone. -/
lemma wrappedSendOne_not_start (gen : DispatchGen) (exh : Bool) (m : Message)
    (h : ¬ m.type = responseStartType) :
    wrappedSendOne gen exh m = Except.ok (m, exh) := by
  unfold wrappedSendOne
  simp [h]

/-- Resuming an already-exhausted generator raises the exhausted signal,
which is caught, and the start message is rewritten from the fresh
descriptor — i.e. forwarded unchanged. -/
lemma wrappedSendOne_exhausted_start (gen : DispatchGen) (m : Message)
    (h : m.type = responseStartType) :
    wrappedSendOne gen true m = Except.ok (m, true) := by
  obtain ⟨t, s, hl, b⟩ := m
  obtain rfl : t = responseStartType := h
  unfold wrappedSendOne
  simp [descriptorOf]

/-- A generator that terminates without mutating the descriptor leaves
every message unchanged; a start message flips the exhaustion flag. -/
lemma wrappedSendOne_stops_id (gen : DispatchGen)
    (h2 : ∀ r, gen.second r = SecondStep.stops r) (exh : Bool) (m : Message) :
    wrappedSendOne gen exh m =
      Except.ok (m, if m.type = responseStartType then true else exh) := by
  by_cases ht : m.type = responseStartType
  · cases exh
    · obtain ⟨t, s, hl, b⟩ := m
      obtain rfl : t = responseStartType := ht
      unfold wrappedSendOne
      simp [h2, descriptorOf]
    · rw [wrappedSendOne_exhausted_start gen m ht]
      simp [ht]
  · rw [wrappedSendOne_not_start gen exh m ht]
    simp [ht]

/-- With a non-mutating generator and a sink that accepts everything, the
send loop delivers exactly the application's messages and raises
nothing. -/
lemma sendAllW_stops_id (gen : DispatchGen) (sink : Message → Option Exc)
    (h2 : ∀ r, gen.second r = SecondStep.stops r) (hs : ∀ m, sink m = none)
    (exh : Bool) (msgs : List Message) :
    (sendAllW gen sink exh msgs).fst = msgs ∧
    (sendAllW gen sink exh msgs).snd.snd = none := by
  induction msgs generalizing exh with
  | nil => simp [sendAllW]
  | cons m ms ih =>
      rw [sendAllW, wrappedSendOne_stops_id gen h2 exh m]
      simp only [hs]
      exact ⟨by simp [(ih _).1], by simp [(ih _).2]⟩

/-- An all-accepting sink delivers every message of the short-circuit
path. -/
lemma deliverAll_ok (sink : Message → Option Exc) (hs : ∀ m, sink m = none)
    (msgs : List Message) : deliverAll sink msgs = (msgs, none) := by
  induction msgs with
  | nil => rfl
  | cons m ms ih => simp [deliverAll, hs, ih]

/-- A generator that yields a second time after being sent the response
descriptor makes `wrapped_send` raise the fatal `RuntimeError` on a start
message, which is never forwarded. -/
lemma wrappedSendOne_yieldsAgain_start (gen : DispatchGen)
    (h2 : ∀ r, gen.second r = SecondStep.yieldsAgain) (m : Message)
    (ht : m.type = responseStartType) :
    wrappedSendOne gen false m =
      Except.error (Exc.runtimeError generatorDidNotStop) := by
  unfold wrappedSendOne
  simp [ht, h2]

/-- With a twice-yielding generator, the send loop raises the fatal
`RuntimeError` as soon as a start message appears, and no start message
is ever delivered to the sink. -/
lemma sendAllW_yieldsAgain (gen : DispatchGen) (sink : Message → Option Exc)
    (h2 : ∀ r, gen.second r = SecondStep.yieldsAgain)
    (hs : ∀ m, sink m = none) (msgs : List Message)
    (h3 : ∃ m ∈ msgs, m.type = responseStartType) :
    (sendAllW gen sink false msgs).snd.snd =
      some (Exc.runtimeError generatorDidNotStop) ∧
    ∀ m ∈ (sendAllW gen sink false msgs).fst, ¬ m.type = responseStartType := by
  induction msgs with
  | nil => simp at h3
  | cons m ms ih =>
      by_cases ht : m.type = responseStartType
      · rw [sendAllW, wrappedSendOne_yieldsAgain_start gen h2 m ht]
        simp
      · rw [sendAllW, wrappedSendOne_not_start gen false m ht]
        simp only [hs]
        have h3x : ∃ m2 ∈ ms, m2.type = responseStartType := by
          obtain ⟨m2, hmem, hty⟩ := h3
          rcases List.mem_cons.mp hmem with heq | hin
          · exact absurd (heq ▸ hty) ht
          · exact ⟨m2, hin, hty⟩
        have ihx := ih h3x
        refine ⟨by simpa using ihx.1, ?_⟩
        intro m2 hm2
        simp only [List.mem_cons] at hm2
        rcases hm2 with heq | hin
        · exact heq ▸ ht
        · exact ihx.2 m2 (by simpa using hin)

/-! ## Sample inputs for the witnesses -/

/-- A representative response-start message. -/
def sampleStartMsg : Message :=
  Message.mk responseStartType 200
    [("content-type", "text/plain; charset=utf-8"), ("x-a", "1")] []

/-- A representative body message. -/
def sampleBodyMsg : Message := Message.mk "http.response.body" 0 [] [79, 75]

/-- A dispatch generator that yields `None` and then terminates without
touching the descriptor. -/
def idGen : DispatchGen :=
  DispatchGen.mk (FirstStep.yields none) (fun r => SecondStep.stops r)

/-- An inner application sending a start and a body message, returning
normally. -/
def sampleApp : InnerApp := InnerApp.mk [sampleStartMsg, sampleBodyMsg] none

/-! ## Claims -/

/-- C1: for every request in which the dispatch generator yields `None` at
its first suspension and terminates on the second resumption without
mutating the response descriptor, the messages delivered to the real send
sink are byte-identical to the sequence the inner application would have
produced with the original send, and the inner application is invoked. -/
theorem claim1_passthrough (gen : DispatchGen) (app : InnerApp)
    (h1 : gen.first = FirstStep.yields none)
    (h2 : ∀ r, gen.second r = SecondStep.stops r) :
    (SimpleHTTPMiddleware.call gen app).sent = app.msgs ∧
    (SimpleHTTPMiddleware.call gen app).error = app.exc ∧
    (SimpleHTTPMiddleware.call gen app).appInvoked = true := by
  have hmain :=
    sendAllW_stops_id gen (fun _ => none) h2 (fun _ => rfl) false app.msgs
  unfold SimpleHTTPMiddleware.call SimpleHTTPMiddleware.callW
    SimpleHTTPMiddleware.callBodyW SimpleHTTPMiddleware.aclosingWrap
  rw [h1]
  simp only [hmain.2]
  simp [hmain.1]

/-- Witness for C1 at a concrete generator and application. -/
theorem claim1_passthrough_witness :
    (SimpleHTTPMiddleware.call idGen sampleApp).sent = sampleApp.msgs ∧
    (SimpleHTTPMiddleware.call idGen sampleApp).error = sampleApp.exc ∧
    (SimpleHTTPMiddleware.call idGen sampleApp).appInvoked = true :=
  claim1_passthrough idGen sampleApp rfl (fun _ => rfl)

/-- A short-circuit response for the C2 witness. -/
def sampleShortCircuitResponse : Response :=
  Response.mk 401 (Headers.mk [("x-b", "2")]) none [72, 105]

/-- A dispatch generator that yields a response at its first suspension. -/
def shortCircuitGen : DispatchGen :=
  DispatchGen.mk (FirstStep.yields (some sampleShortCircuitResponse))
    (fun _ => SecondStep.yieldsAgain)

/-- C2: when the dispatch generator yields a non-`None` response at its
first suspension, exactly that response's start-and-body messages are
delivered to the transport, the adapter returns without error, and the
inner application is never invoked. -/
theorem claim2_short_circuit (gen : DispatchGen) (app : InnerApp) (r : Response)
    (h : gen.first = FirstStep.yields (some r)) :
    (SimpleHTTPMiddleware.call gen app).sent = r.toMessages ∧
    (SimpleHTTPMiddleware.call gen app).appInvoked = false ∧
    (SimpleHTTPMiddleware.call gen app).error = none := by
  unfold SimpleHTTPMiddleware.call SimpleHTTPMiddleware.callW
    SimpleHTTPMiddleware.callBodyW SimpleHTTPMiddleware.aclosingWrap
  rw [h]
  simp [deliverAll_ok (fun _ => none) (fun _ => rfl)]

/-- Witness for C2 at a concrete generator and application. -/
theorem claim2_short_circuit_witness :
    (SimpleHTTPMiddleware.call shortCircuitGen sampleApp).sent =
      sampleShortCircuitResponse.toMessages ∧
    (SimpleHTTPMiddleware.call shortCircuitGen sampleApp).appInvoked = false ∧
    (SimpleHTTPMiddleware.call shortCircuitGen sampleApp).error = none :=
  claim2_short_circuit shortCircuitGen sampleApp sampleShortCircuitResponse rfl

/-- A dispatch generator that yields `None` and then yields again when
resumed (a contract violation). -/
def badGen : DispatchGen :=
  DispatchGen.mk (FirstStep.yields none) (fun _ => SecondStep.yieldsAgain)

/-- C3: when the resumed dispatch generator yields again instead of
raising the exhausted signal, the adapter fails with the fatal
`RuntimeError` whose message is exactly "Generator did not stop", and no
response-start message is ever forwarded to the real send sink. -/
theorem claim3_generator_did_not_stop (gen : DispatchGen) (app : InnerApp)
    (h1 : gen.first = FirstStep.yields none)
    (h2 : ∀ r, gen.second r = SecondStep.yieldsAgain)
    (h3 : ∃ m ∈ app.msgs, m.type = responseStartType) :
    (SimpleHTTPMiddleware.call gen app).error =
      some (Exc.runtimeError generatorDidNotStop) ∧
    ∀ m ∈ (SimpleHTTPMiddleware.call gen app).sent,
      ¬ m.type = responseStartType := by
  have hmain := sendAllW_yieldsAgain gen (fun _ => none) h2 (fun _ => rfl) app.msgs h3
  unfold SimpleHTTPMiddleware.call SimpleHTTPMiddleware.callW
    SimpleHTTPMiddleware.callBodyW SimpleHTTPMiddleware.aclosingWrap
  rw [h1]
  simp only [hmain.1]
  exact ⟨trivial, hmain.2⟩

/-- Witness for C3 at a concrete generator and application. -/
theorem claim3_generator_did_not_stop_witness :
    (SimpleHTTPMiddleware.call badGen sampleApp).error =
      some (Exc.runtimeError generatorDidNotStop) ∧
    ∀ m ∈ (SimpleHTTPMiddleware.call badGen sampleApp).sent,
      ¬ m.type = responseStartType :=
  claim3_generator_did_not_stop badGen sampleApp rfl (fun _ => rfl)
    ⟨sampleStartMsg, by simp [sampleApp], rfl⟩

/-- C7: constructing the adapter with neither a dispatch argument nor an
overridden dispatch method raises the `ValueError` configuration error;
with either one present, construction succeeds and stores the effective
dispatch function. -/
theorem claim7_constructor (d o : SimpleHTTPMiddleware.DispatchFunction) :
    SimpleHTTPMiddleware.construct none none =
      Except.error (Exc.valueError noDispatchProvided) ∧
    SimpleHTTPMiddleware.construct (some d) none = Except.ok d ∧
    SimpleHTTPMiddleware.construct (some d) (some o) = Except.ok d ∧
    SimpleHTTPMiddleware.construct none (some o) = Except.ok o :=
  ⟨rfl, rfl, rfl, rfl⟩

/-- C9: a dispatch generator that terminates without yielding makes the
first advance raise the exhausted signal, which propagates uncaught; the
inner application is never invoked and nothing is sent to the
transport. -/
theorem claim9_terminates_without_yield (gen : DispatchGen) (app : InnerApp)
    (h : gen.first = FirstStep.raises Exc.stopAsyncIteration) :
    (SimpleHTTPMiddleware.call gen app).error = some Exc.stopAsyncIteration ∧
    (SimpleHTTPMiddleware.call gen app).appInvoked = false ∧
    (SimpleHTTPMiddleware.call gen app).sent = [] := by
  unfold SimpleHTTPMiddleware.call SimpleHTTPMiddleware.callW
    SimpleHTTPMiddleware.callBodyW SimpleHTTPMiddleware.aclosingWrap
  rw [h]
  exact ⟨rfl, rfl, rfl⟩

/-- A dispatch generator whose body returns without ever yielding. -/
def emptyGen : DispatchGen :=
  DispatchGen.mk (FirstStep.raises Exc.stopAsyncIteration)
    (fun _ => SecondStep.yieldsAgain)

/-- Witness for C9 at a concrete generator and application. -/
theorem claim9_terminates_without_yield_witness :
    (SimpleHTTPMiddleware.call emptyGen sampleApp).error =
      some Exc.stopAsyncIteration ∧
    (SimpleHTTPMiddleware.call emptyGen sampleApp).appInvoked = false ∧
    (SimpleHTTPMiddleware.call emptyGen sampleApp).sent = [] :=
  claim9_terminates_without_yield emptyGen sampleApp rfl

/-- The sent messages of a call on the non-short-circuit path are exactly
what the send loop delivered, whether or not an exception propagates. -/
lemma callW_sent (gen : DispatchGen) (app : InnerApp) (sink : Message → Option Exc)
    (h1 : gen.first = FirstStep.yields none) :
    (SimpleHTTPMiddleware.callW gen app sink).sent =
      (sendAllW gen sink false app.msgs).fst := by
  unfold SimpleHTTPMiddleware.callW SimpleHTTPMiddleware.callBodyW
    SimpleHTTPMiddleware.aclosingWrap
  rw [h1]
  cases h : (sendAllW gen sink false app.msgs).snd.snd <;> simp [h]

/-- For a start message, a generator that terminates after mutating the
descriptor's status code and headers (leaving the media type alone) makes
`wrapped_send` forward the message with exactly the mutated status and
headers, all other fields untouched. -/
lemma wrappedSendOne_stops_mut (gen : DispatchGen) (fs : Response → Nat)
    (fh : Response → Headers)
    (h2 : ∀ r, gen.second r =
      SecondStep.stops { r with status_code := fs r, headers := fh r })
    (m : Message) (ht : m.type = responseStartType) :
    wrappedSendOne gen false m =
      Except.ok ({ m with status := fs (descriptorOf m),
                          headers := (fh (descriptorOf m)).raw }, true) := by
  obtain ⟨t, s, hl, b⟩ := m
  obtain rfl : t = responseStartType := ht
  unfold wrappedSendOne
  simp [h2, descriptorOf]

/-- C4: when the dispatch generator mutates the descriptor's status code
and headers during the second-phase resumption and then terminates, the
forwarded response-start message carries exactly the mutated status and
header mapping, with the type and body fields untouched. -/
theorem claim4_mutations_copied_back (gen : DispatchGen) (app : InnerApp)
    (fs : Response → Nat) (fh : Response → Headers)
    (h1 : gen.first = FirstStep.yields none)
    (h2 : ∀ r, gen.second r =
      SecondStep.stops { r with status_code := fs r, headers := fh r })
    (m : Message) (rest : List Message)
    (hm : app.msgs = m :: rest) (ht : m.type = responseStartType) :
    (SimpleHTTPMiddleware.call gen app).sent.head? =
      some { m with status := fs (descriptorOf m),
                    headers := (fh (descriptorOf m)).raw } := by
  rw [SimpleHTTPMiddleware.call, callW_sent gen app (fun _ => none) h1, hm,
    sendAllW, wrappedSendOne_stops_mut gen fs fh h2 m ht]
  simp

/-- A generator mutating status to 418 and the headers to a single custom
pair, for the C4 witness. -/
def mutGen : DispatchGen :=
  DispatchGen.mk (FirstStep.yields none)
    (fun r => SecondStep.stops
      { r with status_code := 418, headers := Headers.mk [("x-custom", "1")] })

/-- Witness for C4 at a concrete generator and application. -/
theorem claim4_mutations_copied_back_witness :
    (SimpleHTTPMiddleware.call mutGen sampleApp).sent.head? =
      some { sampleStartMsg with status := 418, headers := [("x-custom", "1")] } :=
  claim4_mutations_copied_back mutGen sampleApp (fun _ => 418)
    (fun _ => Headers.mk [("x-custom", "1")]) rfl (fun _ => rfl)
    sampleStartMsg [sampleBodyMsg] rfl rfl

/-- For a start message, a generator that terminates after changing the
descriptor's media type to a different non-empty value makes
`wrapped_send` regenerate the headers: the old content-type entries are
dropped, all other headers are kept, and the new media type's
content-type value is applied. -/
lemma wrappedSendOne_media_change (gen : DispatchGen) (mt : String)
    (h2 : ∀ r, gen.second r = SecondStep.stops { r with media_type := some mt })
    (hmt : ¬ mt = "") (m : Message) (ht : m.type = responseStartType)
    (hne : ¬ some mt = (descriptorOf m).media_type) :
    wrappedSendOne gen false m =
      Except.ok ({ m with
        headers := (m.headers.filter (fun p => pyLower p.fst ≠ "content-type")) ++
          [("content-type", defaultContentType mt)] }, true) := by
  obtain ⟨t, s, hl, b⟩ := m
  obtain rfl : t = responseStartType := ht
  simp only [descriptorOf] at hne
  unfold wrappedSendOne
  simp [h2, descriptorOf, Response.init_headers, optTruthy, hmt, hne]

/-- C5: when the dispatch generator changes the descriptor's media type
during the second-phase resumption, the forwarded start message's
`Content-Type` header equals the new media type with its default charset
parameter, and every other header set by the original handler is still
present. -/
theorem claim5_media_type_change (gen : DispatchGen) (app : InnerApp)
    (mt : String)
    (h1 : gen.first = FirstStep.yields none)
    (h2 : ∀ r, gen.second r = SecondStep.stops { r with media_type := some mt })
    (hmt : ¬ mt = "")
    (m : Message) (rest : List Message)
    (hm : app.msgs = m :: rest) (ht : m.type = responseStartType)
    (hne : ¬ some mt = (descriptorOf m).media_type) :
    ∃ m2, (SimpleHTTPMiddleware.call gen app).sent.head? = some m2 ∧
      (Headers.mk m2.headers).get contentTypeHeaderKey =
        some (defaultContentType mt) ∧
      ∀ p ∈ m.headers, ¬ pyLower p.fst = "content-type" → p ∈ m2.headers := by
  rw [SimpleHTTPMiddleware.call, callW_sent gen app (fun _ => none) h1, hm,
    sendAllW, wrappedSendOne_media_change gen mt h2 hmt m ht hne]
  refine ⟨{ m with
      headers := (m.headers.filter (fun p => pyLower p.fst ≠ "content-type")) ++
        [("content-type", defaultContentType mt)] }, by simp, ?_, ?_⟩
  · unfold Headers.get
    rw [List.find?_append]
    have hnone :
        (m.headers.filter (fun p => pyLower p.fst ≠ "content-type")).find?
          (fun p => pyLower p.fst = pyLower contentTypeHeaderKey) = none := by
      rw [List.find?_eq_none]
      intro p hp
      have hpk := (List.mem_filter.mp hp).2
      simp only [decide_eq_true_eq] at hpk ⊢
      intro hcontra
      exact hpk (by rw [hcontra]; decide)
    rw [hnone]
    simp only [Option.none_or]
    rfl
  · intro p hp hck
    simp only [List.mem_append]
    exact Or.inl (List.mem_filter.mpr ⟨hp, by simpa using hck⟩)

/-- A generator switching the media type to `application/json`, for the
C5 witness. -/
def mediaGen : DispatchGen :=
  DispatchGen.mk (FirstStep.yields none)
    (fun r => SecondStep.stops { r with media_type := some "application/json" })

/-- For a start message with the generator still live: if the second
phase terminates with descriptor `r`, `wrapped_send` forwards the message
with `r`'s status and (possibly regenerated) headers. -/
lemma wrappedSendOne_start_stops (gen : DispatchGen) (m : Message) (r : Response)
    (ht : m.type = responseStartType)
    (hsec : gen.second (descriptorOf m) = SecondStep.stops r) :
    wrappedSendOne gen false m =
      Except.ok ({ m with status := r.status_code, headers := (if optTruthy r.media_type ∧ r.media_type ≠ (descriptorOf m).media_type then r.init_headers r.headers else r).headers.raw }, true) := by
  unfold wrappedSendOne
  simp [ht, hsec]

/-- Whenever `wrapped_send` succeeds on a message, the forwarded message
keeps the incoming type, and a non-start message is forwarded completely
unchanged. -/
lemma wrappedSendOne_ok_shape (gen : DispatchGen) (exh : Bool) (m : Message)
    (m2 : Message) (exh2 : Bool)
    (h : wrappedSendOne gen exh m = Except.ok (m2, exh2)) :
    m2.type = m.type ∧ (¬ m.type = responseStartType → m2 = m) := by
  by_cases ht : m.type = responseStartType
  · refine ⟨?_, fun hn => absurd ht hn⟩
    cases exh
    · cases hsec : gen.second (descriptorOf m) with
      | stops r =>
          rw [wrappedSendOne_start_stops gen m r ht hsec] at h
          simp only [Except.ok.injEq, Prod.mk.injEq] at h
          rw [← h.1]
      | yieldsAgain =>
          unfold wrappedSendOne at h
          simp [ht, hsec] at h
      | raises e =>
          unfold wrappedSendOne at h
          simp [ht, hsec] at h
    · rw [wrappedSendOne_exhausted_start gen m ht] at h
      simp only [Except.ok.injEq, Prod.mk.injEq] at h
      rw [← h.1]
  · rw [wrappedSendOne_not_start gen exh m ht] at h
    simp only [Except.ok.injEq, Prod.mk.injEq] at h
    exact ⟨by rw [← h.1], fun _ => by rw [← h.1]⟩

/-- When the send loop finishes without raising, it delivered one message
per application message, in order: the forwarded message keeps its type,
and non-start messages are delivered unchanged. -/
lemma sendAllW_forall2_no_error (gen : DispatchGen) (sink : Message → Option Exc)
    (exh : Bool) (msgs : List Message)
    (herr : (sendAllW gen sink exh msgs).snd.snd = none) :
    List.Forall₂
      (fun m s => s.type = m.type ∧ (¬ m.type = responseStartType → s = m))
      msgs (sendAllW gen sink exh msgs).fst := by
  induction msgs generalizing exh with
  | nil => simp [sendAllW]
  | cons m ms ih =>
      rw [sendAllW] at herr ⊢
      cases hws : wrappedSendOne gen exh m with
      | error e => rw [hws] at herr; simp at herr
      | ok p =>
          obtain ⟨m2, exh2⟩ := p
          rw [hws] at herr
          cases hsk : sink m2 with
          | some e => simp [hsk] at herr
          | none =>
              have hrest : (sendAllW gen sink exh2 ms).snd.snd = none := by
                simpa [hsk] using herr
              simp only [hsk]
              exact List.Forall₂.cons
                (wrappedSendOne_ok_shape gen exh m m2 exh2 hws) (ih exh2 hrest)

/-- C6: when the wrapped send raises nothing over the run, every message
the inner application produces is forwarded to the real sink exactly
once, in the order received — same length, index by index — with its
type preserved, and every message that is not a response-start is
forwarded with its contents unchanged. -/
theorem claim6_forward_in_order (gen : DispatchGen) (app : InnerApp)
    (h1 : gen.first = FirstStep.yields none)
    (h3 : (sendAllW gen (fun _ => none) false app.msgs).snd.snd = none) :
    List.Forall₂
      (fun m s => s.type = m.type ∧ (¬ m.type = responseStartType → s = m))
      app.msgs (SimpleHTTPMiddleware.call gen app).sent := by
  rw [SimpleHTTPMiddleware.call, callW_sent gen app (fun _ => none) h1]
  exact sendAllW_forall2_no_error gen (fun _ => none) false app.msgs h3

/-- Witness for C6 at a concrete generator and application. -/
theorem claim6_forward_in_order_witness :
    List.Forall₂
      (fun m s => s.type = m.type ∧ (¬ m.type = responseStartType → s = m))
      sampleApp.msgs (SimpleHTTPMiddleware.call idGen sampleApp).sent :=
  claim6_forward_in_order idGen sampleApp rfl (by decide)

/-- A generator whose second phase raises an exception from its own body
makes `wrapped_send` propagate it: only the exhausted signal is caught. -/
lemma wrappedSendOne_raises_start (gen : DispatchGen) (e : Exc)
    (h2 : ∀ r, gen.second r = SecondStep.raises e) (m : Message)
    (ht : m.type = responseStartType) :
    wrappedSendOne gen false m = Except.error e := by
  unfold wrappedSendOne
  simp [ht, h2]

/-- C8: the scoped-lifetime wrapper closes the dispatch generator on every
exit path, and exceptions pass through the adapter unchanged: an
exception from the generator's first advance, any exception raised inside
the wrapped send loop (the generator's own body, the contract-violation
error, or the transport send), and, when the loop raises nothing, the
inner application's own exception — never caught, suppressed, or
transformed. -/
theorem claim8_propagation_and_closing (gen : DispatchGen) (app : InnerApp)
    (sink : Message → Option Exc) (e : Exc) (m : Message) (rest : List Message) :
    (SimpleHTTPMiddleware.callW gen app sink).genClosed = true ∧
    (gen.first = FirstStep.raises e →
      (SimpleHTTPMiddleware.callW gen app sink).error = some e) ∧
    (gen.first = FirstStep.yields none →
      (sendAllW gen sink false app.msgs).snd.snd = some e →
      (SimpleHTTPMiddleware.callW gen app sink).error = some e) ∧
    (gen.first = FirstStep.yields none →
      (sendAllW gen sink false app.msgs).snd.snd = none →
      (SimpleHTTPMiddleware.callW gen app sink).error = app.exc) ∧
    (gen.first = FirstStep.yields none →
      (∀ r, gen.second r = SecondStep.raises e) →
      app.msgs = m :: rest → m.type = responseStartType →
      (SimpleHTTPMiddleware.callW gen app sink).error = some e) := by
  refine ⟨rfl, ?_, ?_, ?_, ?_⟩
  · intro h
    unfold SimpleHTTPMiddleware.callW SimpleHTTPMiddleware.callBodyW
      SimpleHTTPMiddleware.aclosingWrap
    rw [h]
  · intro h1 herr
    unfold SimpleHTTPMiddleware.callW SimpleHTTPMiddleware.callBodyW
      SimpleHTTPMiddleware.aclosingWrap
    rw [h1]
    simp only [herr]
  · intro h1 herr
    unfold SimpleHTTPMiddleware.callW SimpleHTTPMiddleware.callBodyW
      SimpleHTTPMiddleware.aclosingWrap
    rw [h1]
    simp only [herr]
  · intro h1 h2 hm ht
    unfold SimpleHTTPMiddleware.callW SimpleHTTPMiddleware.callBodyW
      SimpleHTTPMiddleware.aclosingWrap
    rw [h1, hm, sendAllW, wrappedSendOne_raises_start gen e h2 m ht]

/-- A generator whose first advance raises a user exception. -/
def raiseFirstGen : DispatchGen :=
  DispatchGen.mk (FirstStep.raises (Exc.other "boom"))
    (fun r => SecondStep.stops r)

/-- A generator whose second phase raises a user exception from its body. -/
def raiseSecondGen : DispatchGen :=
  DispatchGen.mk (FirstStep.yields none)
    (fun _ => SecondStep.raises (Exc.other "Exc"))

/-- An inner application that raises after sending its messages. -/
def raisingApp : InnerApp :=
  InnerApp.mk [sampleStartMsg, sampleBodyMsg] (some (Exc.other "AppErr"))

/-- Witness for C8: the generator always ends closed, and a first-advance
exception, a send-loop exception raised by the real sink, an
application exception, and a generator-body exception each propagate
unchanged. -/
theorem claim8_propagation_and_closing_witness :
    (SimpleHTTPMiddleware.callW raiseFirstGen sampleApp (fun _ => none)).genClosed
      = true ∧
    (SimpleHTTPMiddleware.callW raiseFirstGen sampleApp (fun _ => none)).error =
      some (Exc.other "boom") ∧
    (SimpleHTTPMiddleware.callW idGen sampleApp
      (fun _ => some (Exc.other "SinkErr"))).error = some (Exc.other "SinkErr") ∧
    (SimpleHTTPMiddleware.callW idGen raisingApp (fun _ => none)).error =
      some (Exc.other "AppErr") ∧
    (SimpleHTTPMiddleware.callW raiseSecondGen sampleApp (fun _ => none)).error =
      some (Exc.other "Exc") := by
  refine ⟨?_, ?_, ?_, ?_, ?_⟩
  · exact (claim8_propagation_and_closing raiseFirstGen sampleApp (fun _ => none)
      (Exc.other "boom") sampleStartMsg []).1
  · exact (claim8_propagation_and_closing raiseFirstGen sampleApp (fun _ => none)
      (Exc.other "boom") sampleStartMsg []).2.1 rfl
  · exact (claim8_propagation_and_closing idGen sampleApp
      (fun _ => some (Exc.other "SinkErr")) (Exc.other "SinkErr") sampleStartMsg
      []).2.2.1 rfl (by decide)
  · exact (claim8_propagation_and_closing idGen raisingApp (fun _ => none)
      (Exc.other "AppErr") sampleStartMsg []).2.2.2.1 rfl (by decide)
  · exact (claim8_propagation_and_closing raiseSecondGen sampleApp (fun _ => none)
      (Exc.other "Exc") sampleStartMsg [sampleBodyMsg]).2.2.2.2 rfl (fun _ => rfl)
      rfl rfl

/-- C10: the interception logic applies to every response-start message,
not only the first.  In the exhausted state the resumption raises the
exhausted signal, which is caught; the message's status and headers are
rewritten from the freshly constructed descriptor (leaving them as they
came) and forwarded, with no contract-violation error.  At the call
level, with an application emitting two start messages and a
status-mutating generator, the first start is mutated, the second is
forwarded unchanged, and the call raises nothing. -/
theorem claim10_every_start_intercepted (gen : DispatchGen) (m1 m2 : Message)
    (fs : Response → Nat)
    (h1 : gen.first = FirstStep.yields none)
    (h2 : ∀ r, gen.second r = SecondStep.stops { r with status_code := fs r })
    (ht1 : m1.type = responseStartType) (ht2 : m2.type = responseStartType) :
    wrappedSendOne gen true m2 = Except.ok (m2, true) ∧
    (SimpleHTTPMiddleware.call gen (InnerApp.mk [m1, m2] none)).error = none ∧
    (SimpleHTTPMiddleware.call gen (InnerApp.mk [m1, m2] none)).sent =
      [{ m1 with status := fs (descriptorOf m1) }, m2] := by
  have hsend : sendAllW gen (fun _ => none) false [m1, m2] =
      ([{ m1 with status := fs (descriptorOf m1) }, m2], true, none) := by
    rw [sendAllW,
      wrappedSendOne_stops_mut gen fs (fun r => r.headers) h2 m1 ht1]
    simp only
    rw [sendAllW, wrappedSendOne_exhausted_start gen m2 ht2]
    simp [sendAllW, descriptorOf]
  refine ⟨wrappedSendOne_exhausted_start gen m2 ht2, ?_, ?_⟩
  · unfold SimpleHTTPMiddleware.call SimpleHTTPMiddleware.callW
      SimpleHTTPMiddleware.callBodyW SimpleHTTPMiddleware.aclosingWrap
    rw [h1]
    simp only [hsend]
  · rw [SimpleHTTPMiddleware.call,
      callW_sent gen (InnerApp.mk [m1, m2] none) (fun _ => none) h1]
    simp only [hsend]

/-- A second start message with different status and headers, for the C10
witness. -/
def sampleStartMsg2 : Message :=
  Message.mk responseStartType 500 [("content-type", "text/html; charset=utf-8")] []

/-- A generator mutating only the status code, for the C10 witness. -/
def statusGen : DispatchGen :=
  DispatchGen.mk (FirstStep.yields none)
    (fun r => SecondStep.stops { r with status_code := 418 })

/-- Witness for C10 at a concrete generator and two start messages. -/
theorem claim10_every_start_intercepted_witness :
    wrappedSendOne statusGen true sampleStartMsg2 =
      Except.ok (sampleStartMsg2, true) ∧
    (SimpleHTTPMiddleware.call statusGen
      (InnerApp.mk [sampleStartMsg, sampleStartMsg2] none)).error = none ∧
    (SimpleHTTPMiddleware.call statusGen
      (InnerApp.mk [sampleStartMsg, sampleStartMsg2] none)).sent =
      [{ sampleStartMsg with status := 418 }, sampleStartMsg2] :=
  claim10_every_start_intercepted statusGen sampleStartMsg sampleStartMsg2
    (fun _ => 418) rfl (fun _ => rfl) rfl rfl

/-- Witness for C5 at a concrete generator and application. -/
theorem claim5_media_type_change_witness :
    ∃ m2, (SimpleHTTPMiddleware.call mediaGen sampleApp).sent.head? = some m2 ∧
      (Headers.mk m2.headers).get contentTypeHeaderKey =
        some (defaultContentType "application/json") ∧
      ∀ p ∈ sampleStartMsg.headers, ¬ pyLower p.fst = "content-type" →
        p ∈ m2.headers :=
  claim5_media_type_change mediaGen sampleApp "application/json" rfl
    (fun _ => rfl) (by decide) sampleStartMsg [sampleBodyMsg] rfl rfl (by decide)
